import Mathlib

/-!
Verification development for the `pres1-llm-langchain` service.

The file embeds, over exact arithmetic (`ℚ` in place of Python floats, as
the spec's "internal accumulation uses full precision"), the parts of the
repository the claims are about:

* `PriceCalculatorTool._arun` and `ProductSearchTool._arun`
  (`Services/LLM/utils/tools.py`);
* the `/chat` handler `chat_with_ai` and the `/health` handler
  `health_check` (`Services/LLM/app.py`).

External collaborators (the MongoDB catalog store, the Azure OpenAI model)
are passed in as explicit function arguments, matching the spec's boundary
(§6).  Fallible paths are modelled with `Except`/`Option`.
-/

namespace Pres1

/-- Round a rational to the nearest integer, ties to even: the rounding
Python's `format(x, ".2f")` applies to the scaled value. -/
def roundHalfEven (q : ℚ) : ℤ :=
  let f := ⌊q⌋
  let r := q - (f : ℚ)
  if r < 1/2 then f
  else if 1/2 < r then f + 1
  else if f % 2 = 0 then f else f + 1

/-- Two-digit decimal rendering of a remainder below 100. -/
def pad2 (n : Nat) : String :=
  if n < 10 then "0" ++ toString n else toString n

/-- Model of the Python f-string conversion `f"{x:.2f}"` on an exact
rational: round `100 * x` half-to-even and print with two decimals. -/
def format2 (q : ℚ) : String :=
  let n := roundHalfEven (q * 100)
  (if n < 0 then "-" else "") ++ toString (n.natAbs / 100) ++ "." ++ pad2 (n.natAbs % 100)

/-- Value of a digit list read left to right (most significant first). -/
def digitsVal (l : List Char) : Nat :=
  l.foldl (fun acc c => acc * 10 + (c.toNat - 48)) 0

/-- Parsed shape of a decimal literal: negative sign present, value of the
integer digits, value of the fraction digits, number of fraction digits. -/
structure FloatParts where
  neg : Bool
  intVal : Nat
  fracVal : Nat
  fracLen : Nat
deriving DecidableEq

/-- Syntactic half of Python `float()` on the decimal strings the
calculator feeds it: optional sign, integer digits, optional point and
fraction digits; any other shape raises `ValueError`, modelled as `none`.
(The exponent and special forms `float` also accepts are unreachable from
the calculator's normalised inputs.) -/
def parseFloatParts (t : List Char) : Option FloatParts :=
  let su : Bool × List Char :=
    match t with
    | c :: cs => if c = '-' then (true, cs) else if c = '+' then (false, cs) else (false, t)
    | [] => (false, [])
  let ip := su.2.takeWhile Char.isDigit
  let rest := su.2.dropWhile Char.isDigit
  match rest with
  | [] => if ip.isEmpty then none else some ⟨su.1, digitsVal ip, 0, 0⟩
  | c :: frac =>
    if c = '.' && frac.all Char.isDigit && (!ip.isEmpty || !frac.isEmpty) then
      some ⟨su.1, digitsVal ip, digitsVal frac, frac.length⟩
    else none

/-- Numeric value of a parsed decimal literal. -/
def partsVal (p : FloatParts) : ℚ :=
  (if p.neg then -1 else 1) * ((p.intVal : ℚ) + (p.fracVal : ℚ) / (10 ^ p.fracLen : ℚ))

/-- Model of Python `float()` on a string: parse, then evaluate. -/
def parseFloat (t : List Char) : Option ℚ :=
  (parseFloatParts t).map partsVal

/-- Remove every occurrence of one character: `str.replace(c, "")` for a
one-character pattern. -/
def removeChar (c : Char) (s : List Char) : List Char :=
  s.filter (fun a => a ≠ c)

/-- Strip leading and trailing whitespace: Python `str.strip()`. -/
def trimChars (s : List Char) : List Char :=
  ((s.dropWhile Char.isWhitespace).reverse.dropWhile Char.isWhitespace).reverse

/-- JSON value found under an item's `"price"` key: a number or a string
(`raw_price` in `tools.py`). -/
inductive PriceField where
  | num (q : ℚ)
  | str (s : String)
deriving DecidableEq

/-- One entry of the `products` argument of `price_calculator`: a dict
whose `name`, `price` and `quantity` keys may each be absent. -/
structure LineItem where
  name : Option String
  price : Option PriceField
  quantity : Option ℤ
deriving DecidableEq

/-- Price normalisation of `tools.py` lines 100–107: a string price has
`"$"` and `","` removed and is stripped, then goes through `float()`; a
numeric price passes through `float()` unchanged. -/
def normalizePrice : PriceField → Option ℚ
  | PriceField.num q => some q
  | PriceField.str s => parseFloat (trimChars (removeChar ',' (removeChar '$' s.toList)))

/-- Exact (pre-rounding) values the loop body of `_arun` computes for one
item: display name, unit price, quantity and the item subtotal. -/
structure RawEntry where
  product : String
  rawPrice : ℚ
  quantity : ℤ
  rawSubtotal : ℚ
deriving DecidableEq

/-- Loop body of `_arun` (lines 96–119) for one item: defaults
`"Producto sin nombre"`, price `0` and quantity `1` for missing keys, price
normalisation, and `subtotal = price * quantity`.  `none` is the
`ValueError` of `float()` that the surrounding `try` turns into an error
reply. -/
def processItem (item : LineItem) : Option RawEntry :=
  (normalizePrice (item.price.getD (PriceField.num 0))).map (fun price =>
    ⟨item.name.getD "Producto sin nombre", price, item.quantity.getD 1,
      price * ((item.quantity.getD 1 : ℤ) : ℚ)⟩)

/-- The whole item loop: the first failing item aborts the computation, as
the single `try` around the loop does. -/
def processItems : List LineItem → Option (List RawEntry)
  | [] => some []
  | item :: rest =>
    match processItem item, processItems rest with
    | some e, some es => some (e :: es)
    | _, _ => none

/-- Running total after the loop: the exact sum of the item subtotals. -/
def rawTotal (entries : List RawEntry) : ℚ :=
  entries.foldl (fun acc e => acc + e.rawSubtotal) 0

/-- Discount step of `_arun` lines 121–125: a discount is applied only when
`discount_percent > 0`; no validation of the upper bound exists. -/
def rawDiscountAmount (total dp : ℚ) : ℚ :=
  if 0 < dp then total * (dp / 100) else 0

/-- Python `str()` of a float for the integral values exercised in this
development (`"150.0"` for `150.0`); non-integral values are approximated
by their two-decimal rendering. -/
def floatRepr (q : ℚ) : String :=
  if q.den = 1 then toString q.num ++ ".0" else format2 q

/-- One formatted entry of the `breakdown` array (lines 114–119). -/
structure BreakdownEntry where
  product : String
  price : String
  quantity : ℤ
  subtotal : String
deriving DecidableEq

/-- The `result` dict of `_arun` lines 127–133, field for field. -/
structure CalcOutput where
  breakdown : List BreakdownEntry
  subtotal : String
  discount : String
  discount_amount : String
  total : String
deriving DecidableEq

/-- Render of one raw entry into its `breakdown` element: `f"{price:.2f}"`
and `f"{subtotal:.2f}"`. -/
def formatEntry (e : RawEntry) : BreakdownEntry :=
  ⟨e.product, format2 e.rawPrice, e.quantity, format2 e.rawSubtotal⟩

/-- `PriceCalculatorTool._arun` (tools.py lines 86–138): the item loop,
the discount step and the output dict; `Except.error` is the
`except Exception` reply string (its Python tail `str(e)` is not
modelled). -/
def priceCalculator (products : List LineItem) (discount_percent : ℚ) :
    Except String CalcOutput :=
  match processItems products with
  | none => Except.error "Error calculando precios: could not convert string to float"
  | some entries =>
    let total0 := rawTotal entries
    let discount_amount := rawDiscountAmount total0 discount_percent
    let total := total0 - discount_amount
    Except.ok
      ⟨entries.map formatEntry,
        format2 (total + discount_amount),
        (if 0 < discount_percent then floatRepr discount_percent ++ "%" else "0%"),
        format2 discount_amount,
        format2 total⟩

/-- Rounding a value that is already an integer returns that integer. -/
theorem roundHalfEven_intCast (n : ℤ) : roundHalfEven (n : ℚ) = n := by
  unfold roundHalfEven
  norm_num

/-- Evaluation rule for `format2` on an exact multiple of `1/100`. -/
theorem format2_eq (q : ℚ) (n : ℤ) (h : q * 100 = (n : ℚ)) :
    format2 q =
      (if n < 0 then "-" else "") ++ toString (n.natAbs / 100) ++ "." ++ pad2 (n.natAbs % 100) := by
  unfold format2
  rw [h, roundHalfEven_intCast]

/-- Unfolding of the calculator on a successfully processed item list. -/
theorem priceCalculator_ok (products : List LineItem) (entries : List RawEntry) (dp : ℚ)
    (h : processItems products = some entries) :
    priceCalculator products dp =
      Except.ok
        ⟨entries.map formatEntry,
          format2 (rawTotal entries - rawDiscountAmount (rawTotal entries) dp +
            rawDiscountAmount (rawTotal entries) dp),
          (if 0 < dp then floatRepr dp ++ "%" else "0%"),
          format2 (rawDiscountAmount (rawTotal entries) dp),
          format2 (rawTotal entries - rawDiscountAmount (rawTotal entries) dp)⟩ := by
  unfold priceCalculator
  rw [h]

/-- Formatting the exact zero gives the two-decimal zero string. -/
theorem format2_zero : format2 (0 : ℚ) = "0.00" := by
  rw [format2_eq 0 0 (by norm_num)]
  decide

/-- Evaluation of the price normalisation on the spec's currency string. -/
theorem normalizePrice_example :
    normalizePrice (PriceField.str "$ 1,234.56") = some (123456/100 : ℚ) := by
  have h : parseFloatParts (trimChars (removeChar ',' (removeChar '$' "$ 1,234.56".toList)))
      = some ⟨false, 1234, 56, 2⟩ := by decide
  simp only [normalizePrice, parseFloat, h, Option.map_some', Option.some.injEq, partsVal]
  norm_num

/-- A document of the `products` collection, as `ProductSearchTool` reads
it: `name`, `unit_price`, `stock`. -/
structure Product where
  name : String
  unit_price : ℚ
  stock : ℤ
deriving DecidableEq

/-- One element of the JSON array `_arun` serialises on success
(tools.py lines 46-50): `name`, `price` as `f"${unit_price}"`, `stock`. -/
structure SearchEntry where
  name : String
  price : String
  stock : ℤ
deriving DecidableEq

/-- The three shapes of `ProductSearchTool._arun`'s reply: the explicit
no-results message (line 41), the serialised result list (line 52), or the
caught-exception text (line 55).  The source returns each as a string; the
result list is kept structured here instead of modelling `json.dumps`. -/
inductive SearchOutput where
  | noResults (msg : String)
  | results (items : List SearchEntry)
  | failure (msg : String)
deriving DecidableEq

/-- `ProductSearchTool._arun` (tools.py lines 30-55).  The catalog store
(the MongoDB `find` + `limit` + `to_list` pipeline) is the external
collaborator `storeFind`; a raised store error is caught and rendered as
text, an empty result list becomes the explicit message naming the term. -/
def productSearch (storeFind : String → Nat → Except String (List Product))
    (query : String) (max_results : Nat) : SearchOutput :=
  match storeFind query max_results with
  | Except.error e => SearchOutput.failure ("Error buscando productos: " ++ e)
  | Except.ok products =>
    if products.isEmpty then
      SearchOutput.noResults ("No se encontraron productos para '" ++ query ++ "'")
    else
      SearchOutput.results (products.map (fun p => ⟨p.name, "$" ++ floatRepr p.unit_price, p.stock⟩))

/-- Whether the first list stands at the head of the second. -/
def matchHead : List Char → List Char → Bool
  | [], _ => true
  | _ :: _, [] => false
  | a :: as, b :: bs => a == b && matchHead as bs

/-- Whether the first list occurs contiguously anywhere in the second. -/
def matchSomewhere (needle : List Char) : List Char → Bool
  | [] => needle.isEmpty
  | b :: bs => matchHead needle (b :: bs) || matchSomewhere needle bs

/-- A string mentions another when the latter occurs in it verbatim. -/
def strMentions (needle hay : String) : Bool :=
  matchSomewhere needle.toList hay.toList

theorem matchHead_self (xs rest : List Char) : matchHead xs (xs ++ rest) = true := by
  induction xs with
  | nil => rfl
  | cons a as ih => simp [matchHead, ih]

theorem matchSomewhere_nil (hay : List Char) : matchSomewhere [] hay = true := by
  induction hay with
  | nil => rfl
  | cons b bs ih => simp [matchSomewhere, ih, matchHead]

theorem matchSomewhere_head (xs rest : List Char) : matchSomewhere xs (xs ++ rest) = true := by
  cases xs with
  | nil => simpa using matchSomewhere_nil rest
  | cons a as =>
    have h := matchHead_self (a :: as) rest
    simp only [List.cons_append] at h
    simp [matchSomewhere, h]

theorem matchSomewhere_append (pre xs suf : List Char) :
    matchSomewhere xs (pre ++ xs ++ suf) = true := by
  induction pre with
  | nil => simpa using matchSomewhere_head xs suf
  | cons c cs ih =>
    have ih2 : matchSomewhere xs (cs ++ (xs ++ suf)) = true := by
      simpa [List.append_assoc] using ih
    simp [matchSomewhere, ih2]

theorem strMentions_sandwich (pre mid suf : String) :
    strMentions mid (pre ++ mid ++ suf) = true := by
  have h : (pre ++ mid ++ suf).toList = pre.toList ++ mid.toList ++ suf.toList := by
    simp [String.toList]
  rw [strMentions, h]
  exact matchSomewhere_append pre.toList mid.toList suf.toList

/-- A `SystemMessage` or `HumanMessage` of the conversation sent to the
model. -/
inductive Msg where
  | system (content : String)
  | human (content : String)
deriving DecidableEq

/-- A tool call the model may request (name and serialised arguments). -/
structure ToolCallReq where
  name : String
  args : String
deriving DecidableEq

/-- The model's reply (`AIMessage`): free text plus the tool calls the
model requested, possibly several.  `chat_with_ai` only ever reads
`content`. -/
structure AIMessage where
  content : String
  tool_calls : List ToolCallReq
deriving DecidableEq

/-- `ChatRequest` of `schemas.py`: `message`, and `context` defaulting to
the empty string. -/
structure ChatRequest where
  message : String
  context : String
deriving DecidableEq

/-- `ChatResponse` of `schemas.py`. -/
structure ChatResponse where
  response : String
  model : String
deriving DecidableEq

/-- The `HTTPException` raised by a handler: status code and detail. -/
structure HTTPErr where
  status_code : Nat
  detail : String
deriving DecidableEq

/-- Observable side effects of one handler run: a model invocation with
the conversation it sent, or a dispatch of a named tool. -/
inductive Effect where
  | llmCall (msgs : List Msg)
  | toolDispatch (name : String)
deriving DecidableEq

/-- System prompt of `chat_with_ai` (app.py lines 190-193), whitespace
condensed. -/
def chatSystemPrompt : String :=
  "Eres un asistente útil especializado en tecnología y productos electrónicos. Responde de manera clara, concisa y profesional."

/-- Conversation built by `chat_with_ai` (app.py lines 189-198): system
prompt and user message, with `messages.insert(1, ...)` adding the context
system message when `request.context` is truthy (non-empty). -/
def buildMessages (request : ChatRequest) : List Msg :=
  let messages := [Msg.system chatSystemPrompt, Msg.human request.message]
  if request.context ≠ "" then
    messages.insertIdx 1 (Msg.system ("Contexto adicional: " ++ request.context))
  else
    messages

/-- `chat_with_ai` (app.py lines 185-208): one `llm.ainvoke` on the built
conversation and nothing else — no tool is bound, dispatched or looped
over.  Returns the HTTP-level result paired with the trace of effects the
run performed.  A model failure becomes the HTTP 500 of the handler's
`except` clause. -/
def chat_with_ai (deployment : String) (llm : List Msg → Except String AIMessage)
    (request : ChatRequest) : Except HTTPErr ChatResponse × List Effect :=
  let messages := buildMessages request
  match llm messages with
  | Except.error e => (Except.error ⟨500, "Error en chat: " ++ e⟩, [Effect.llmCall messages])
  | Except.ok response => (Except.ok ⟨response.content, deployment⟩, [Effect.llmCall messages])

/-- Number of model invocations recorded in a trace. -/
def countLlmCalls (trace : List Effect) : Nat :=
  (trace.filter (fun e => match e with | Effect.llmCall _ => true | _ => false)).length

/-- Number of tool dispatches recorded in a trace. -/
def countToolDispatches (trace : List Effect) : Nat :=
  (trace.filter (fun e => match e with | Effect.toolDispatch _ => true | _ => false)).length

/-- Whether a probe of an external service succeeded. -/
def probeOk {α : Type} (e : Except String α) : Bool :=
  match e with
  | Except.ok _ => true
  | Except.error _ => false

/-- `HealthResponse` of `schemas.py`: overall status plus per-service
statuses. -/
structure HealthResponse where
  status : String
  services : List (String × String)
deriving DecidableEq

/-- `health_check` (app.py lines 93-120): the MongoDB probe
(`db.products.count_documents({})`) and the model probe
(`llm.ainvoke([HumanMessage("Hello")])`) are the external collaborators;
each `try` turns success into `"healthy"` and any exception into
`"unhealthy"`, and the overall status is `"healthy"` only when both
are. -/
def health_check (mongoProbe : Except String Nat) (llmProbe : Except String AIMessage) :
    HealthResponse :=
  let mongo_status := if probeOk mongoProbe then "healthy" else "unhealthy"
  let llm_status := if probeOk llmProbe then "healthy" else "unhealthy"
  let overall_status :=
    if mongo_status = "healthy" ∧ llm_status = "healthy" then "healthy" else "unhealthy"
  ⟨overall_status, [("mongodb", mongo_status), ("azure_openai", llm_status)]⟩

/-- The fixed fallback message the spec prescribes for an exhausted
iteration ceiling; the string appears nowhere in the repository. -/
def fallbackMessage : String := "unable to produce an answer for this query"

/-- A scripted model that on every turn requests a tool call and never
returns a final answer (its free text is empty). -/
def alwaysToolModel : List Msg → Except String AIMessage :=
  fun _ => Except.ok ⟨"", [⟨"product_search", "GoPro Hero 11"⟩]⟩

/-- C1 (code bug evidence): the spec's Reasoning Loop does not exist in
`chat_with_ai` — under a model that always requests a tool call and never
produces a final answer, the handler performs no tool dispatch and returns
the model's (empty) content as the answer, which is not the fixed fallback
message the spec prescribes for the iteration ceiling. -/
theorem c1_chat_lacks_reasoning_loop :
    (chat_with_ai "gpt-4.1" alwaysToolModel
        ⟨"¿Cuánto me cuesta comprar 5 GoPro Hero 11?", ""⟩).1 =
      Except.ok ⟨"", "gpt-4.1"⟩ ∧
    countToolDispatches (chat_with_ai "gpt-4.1" alwaysToolModel
        ⟨"¿Cuánto me cuesta comprar 5 GoPro Hero 11?", ""⟩).2 = 0 ∧
    ("" : String) ≠ fallbackMessage :=
  ⟨rfl, rfl, by decide⟩

/-- C2: every run of the /chat handler performs exactly one language-model
invocation and dispatches no tool, and when the model call succeeds the
returned `ChatResponse.response` is the model's message content verbatim
while `ChatResponse.model` is the configured deployment name. -/
theorem c2_chat_single_model_call (deployment : String)
    (llm : List Msg → Except String AIMessage) (request : ChatRequest) (r : AIMessage)
    (h : llm (buildMessages request) = Except.ok r) :
    countLlmCalls (chat_with_ai deployment llm request).2 = 1 ∧
    countToolDispatches (chat_with_ai deployment llm request).2 = 0 ∧
    (chat_with_ai deployment llm request).1 = Except.ok ⟨r.content, deployment⟩ := by
  simp [chat_with_ai, h, countLlmCalls, countToolDispatches]

/-- Witness for C2 at a concrete model and request. -/
theorem c2_chat_single_model_call_witness :
    countLlmCalls (chat_with_ai "gpt-4.1" (fun _ => Except.ok ⟨"Hola", []⟩) ⟨"Hola", ""⟩).2 = 1 ∧
    countToolDispatches
      (chat_with_ai "gpt-4.1" (fun _ => Except.ok ⟨"Hola", []⟩) ⟨"Hola", ""⟩).2 = 0 ∧
    (chat_with_ai "gpt-4.1" (fun _ => Except.ok ⟨"Hola", []⟩) ⟨"Hola", ""⟩).1 =
      Except.ok ⟨"Hola", "gpt-4.1"⟩ :=
  c2_chat_single_model_call "gpt-4.1" (fun _ => Except.ok ⟨"Hola", []⟩) ⟨"Hola", ""⟩
    ⟨"Hola", []⟩ rfl

/-- C3 (code bug evidence): the calculator validates no discount bound.  A
discount of 150% is silently applied, producing a negative total, and a
negative discount is silently treated as no discount; neither input fails
with anything like `InvalidDiscount`. -/
theorem c3_discount_out_of_range_accepted :
    priceCalculator [⟨some "Monitor", some (PriceField.num 100), some 1⟩] 150 =
      Except.ok ⟨[⟨"Monitor", "100.00", 1, "100.00"⟩],
        "100.00", "150.0%", "150.00", "-50.00"⟩ ∧
    priceCalculator [⟨some "Monitor", some (PriceField.num 100), some 1⟩] (-5) =
      Except.ok ⟨[⟨"Monitor", "100.00", 1, "100.00"⟩],
        "100.00", "0%", "0.00", "100.00"⟩ := by
  have hent : processItems [⟨some "Monitor", some (PriceField.num 100), some 1⟩] =
      some [⟨"Monitor", 100, 1, 100⟩] := by
    simp [processItems, processItem, normalizePrice]
  have ht : rawTotal [(⟨"Monitor", 100, 1, 100⟩ : RawEntry)] = 100 := by
    simp [rawTotal]
  have f100 : format2 (100 : ℚ) = "100.00" := by
    rw [format2_eq 100 10000 (by norm_num)]; decide
  have f150 : format2 (150 : ℚ) = "150.00" := by
    rw [format2_eq 150 15000 (by norm_num)]; decide
  have fm50 : format2 (-50 : ℚ) = "-50.00" := by
    rw [format2_eq (-50) (-5000) (by norm_num)]; decide
  have hfe : formatEntry ⟨"Monitor", 100, 1, 100⟩ = ⟨"Monitor", "100.00", 1, "100.00"⟩ := by
    simp [formatEntry, f100]
  constructor
  · have hd : rawDiscountAmount 100 150 = 150 := by
      rw [rawDiscountAmount, if_pos (by norm_num : (0:ℚ) < 150)]; norm_num
    have hfr : floatRepr (150 : ℚ) = "150.0" := by
      rw [floatRepr, if_pos (by simp [Rat.den_ofNat])]
      rw [Rat.num_ofNat]; decide
    rw [priceCalculator_ok _ _ _ hent, ht, hd,
      if_pos (by norm_num : (0:ℚ) < 150), hfr,
      (by norm_num : (100:ℚ) - 150 + 150 = 100),
      (by norm_num : (100:ℚ) - 150 = -50)]
    simp [hfe, f100, f150, fm50]
  · have hd : rawDiscountAmount 100 (-5) = 0 := by
      rw [rawDiscountAmount, if_neg (by norm_num : ¬ (0:ℚ) < -5)]
    rw [priceCalculator_ok _ _ _ hent, ht, hd,
      if_neg (by norm_num : ¬ (0:ℚ) < -5),
      (by norm_num : (100:ℚ) - 0 + 0 = 100),
      (by norm_num : (100:ℚ) - 0 = 100)]
    simp [hfe, f100, format2_zero]

/-- C4: for processed items (any non-negative prices and positive integer
quantities) and a discount in [0, 100], the exact pre-rounding values
satisfy `total + discount_amount = subtotal` and
`discount_amount = subtotal * discount_percent / 100`, and every output
field is the two-decimal rendering of the corresponding exact value, so
rounding happens exactly once, at output. -/
theorem c4_breakdown_invariant (products : List LineItem) (dp : ℚ) (entries : List RawEntry)
    (hp : processItems products = some entries)
    (hprice : ∀ e ∈ entries, 0 ≤ e.rawPrice)
    (hqty : ∀ e ∈ entries, 1 ≤ e.quantity)
    (h0 : 0 ≤ dp) (h100 : dp ≤ 100) :
    rawTotal entries - rawDiscountAmount (rawTotal entries) dp +
        rawDiscountAmount (rawTotal entries) dp = rawTotal entries ∧
    rawDiscountAmount (rawTotal entries) dp = rawTotal entries * dp / 100 ∧
    priceCalculator products dp =
      Except.ok ⟨entries.map formatEntry,
        format2 (rawTotal entries),
        (if 0 < dp then floatRepr dp ++ "%" else "0%"),
        format2 (rawTotal entries * dp / 100),
        format2 (rawTotal entries - rawTotal entries * dp / 100)⟩ := by
  have hd : rawDiscountAmount (rawTotal entries) dp = rawTotal entries * dp / 100 := by
    by_cases hpos : 0 < dp
    · rw [rawDiscountAmount, if_pos hpos]; ring
    · rw [rawDiscountAmount, if_neg hpos]
      have hz : dp = 0 := le_antisymm (not_lt.mp hpos) h0
      rw [hz]; ring
  refine ⟨by ring, hd, ?_⟩
  rw [priceCalculator_ok products entries dp hp, hd,
    (by ring : rawTotal entries - rawTotal entries * dp / 100 + rawTotal entries * dp / 100 =
      rawTotal entries)]

/-- Witness for C4 at one item of price 10 and quantity 2 with a 10%
discount. -/
theorem c4_breakdown_invariant_witness :
    rawTotal [(⟨"A", 10, 2, 20⟩ : RawEntry)] -
        rawDiscountAmount (rawTotal [(⟨"A", 10, 2, 20⟩ : RawEntry)]) 10 +
        rawDiscountAmount (rawTotal [(⟨"A", 10, 2, 20⟩ : RawEntry)]) 10 =
      rawTotal [(⟨"A", 10, 2, 20⟩ : RawEntry)] ∧
    rawDiscountAmount (rawTotal [(⟨"A", 10, 2, 20⟩ : RawEntry)]) 10 =
      rawTotal [(⟨"A", 10, 2, 20⟩ : RawEntry)] * 10 / 100 ∧
    priceCalculator [⟨some "A", some (PriceField.num 10), some 2⟩] 10 =
      Except.ok ⟨[(⟨"A", 10, 2, 20⟩ : RawEntry)].map formatEntry,
        format2 (rawTotal [(⟨"A", 10, 2, 20⟩ : RawEntry)]),
        (if (0:ℚ) < 10 then floatRepr 10 ++ "%" else "0%"),
        format2 (rawTotal [(⟨"A", 10, 2, 20⟩ : RawEntry)] * 10 / 100),
        format2 (rawTotal [(⟨"A", 10, 2, 20⟩ : RawEntry)] -
          rawTotal [(⟨"A", 10, 2, 20⟩ : RawEntry)] * 10 / 100)⟩ :=
  c4_breakdown_invariant [⟨some "A", some (PriceField.num 10), some 2⟩] 10
    [⟨"A", 10, 2, 20⟩]
    (by simp [processItems, processItem, normalizePrice]; norm_num)
    (by intro e he; rw [List.mem_singleton] at he; subst he; norm_num)
    (by intro e he; rw [List.mem_singleton] at he; subst he; norm_num)
    (by norm_num) (by norm_num)

/-- C5: a line item whose price is the currency-formatted string
"$ 1,234.56" is normalised to the exact unit price 1234.56 before the item
subtotal (price times quantity) is computed. -/
theorem c5_currency_string_normalized (nm : Option String) (qo : Option ℤ) :
    processItem ⟨nm, some (PriceField.str "$ 1,234.56"), qo⟩ =
      some ⟨nm.getD "Producto sin nombre", 123456/100, qo.getD 1,
        123456/100 * ((qo.getD 1 : ℤ) : ℚ)⟩ := by
  simp [processItem, normalizePrice_example]

/-- C6: on the item list [{name: "GoPro Hero 11", price: "$350.00",
quantity: 5}] with a 10% discount the calculator outputs subtotal
"1750.00", discount_amount "175.00" and total "1575.00". -/
theorem c6_gopro_example :
    priceCalculator [⟨some "GoPro Hero 11", some (PriceField.str "$350.00"), some 5⟩] 10 =
      Except.ok ⟨[⟨"GoPro Hero 11", "350.00", 5, "1750.00"⟩],
        "1750.00", "10.0%", "175.00", "1575.00"⟩ := by
  have hp : normalizePrice (PriceField.str "$350.00") = some (350 : ℚ) := by
    have h : parseFloatParts (trimChars (removeChar ',' (removeChar '$' "$350.00".toList)))
        = some ⟨false, 350, 0, 2⟩ := by decide
    simp only [normalizePrice, parseFloat, h, Option.map_some', Option.some.injEq, partsVal]
    norm_num
  have hent : processItems [⟨some "GoPro Hero 11", some (PriceField.str "$350.00"), some 5⟩]
      = some [⟨"GoPro Hero 11", 350, 5, 1750⟩] := by
    simp [processItems, processItem, hp]
    norm_num
  have ht : rawTotal [(⟨"GoPro Hero 11", 350, 5, 1750⟩ : RawEntry)] = 1750 := by
    simp [rawTotal]
  have hd : rawDiscountAmount 1750 10 = 175 := by
    rw [rawDiscountAmount, if_pos (by norm_num : (0:ℚ) < 10)]; norm_num
  have hfr : floatRepr (10 : ℚ) = "10.0" := by
    rw [floatRepr, if_pos (by simp [Rat.den_ofNat])]
    rw [Rat.num_ofNat]; decide
  have f350 : format2 (350 : ℚ) = "350.00" := by
    rw [format2_eq 350 35000 (by norm_num)]; decide
  have f1750 : format2 (1750 : ℚ) = "1750.00" := by
    rw [format2_eq 1750 175000 (by norm_num)]; decide
  have f175 : format2 (175 : ℚ) = "175.00" := by
    rw [format2_eq 175 17500 (by norm_num)]; decide
  have f1575 : format2 (1575 : ℚ) = "1575.00" := by
    rw [format2_eq 1575 157500 (by norm_num)]; decide
  rw [priceCalculator_ok _ _ _ hent, ht, hd,
    if_pos (by norm_num : (0:ℚ) < 10), hfr,
    (by norm_num : (1750:ℚ) - 175 + 175 = 1750),
    (by norm_num : (1750:ℚ) - 175 = 1575)]
  simp [formatEntry, f350, f1750, f175, f1575]

/-- C7: whenever the catalog store returns no matching product for a term,
the search tool returns the explicit no-results message naming that term —
a message, not an exception, an error payload or an empty structure (the
`noResults` constructor is distinct from `results` and `failure`). -/
theorem c7_search_no_results (storeFind : String → Nat → Except String (List Product))
    (query : String) (max_results : Nat)
    (h : storeFind query max_results = Except.ok []) :
    productSearch storeFind query max_results =
      SearchOutput.noResults ("No se encontraron productos para '" ++ query ++ "'") ∧
    strMentions query ("No se encontraron productos para '" ++ query ++ "'") = true := by
  constructor
  · simp [productSearch, h]
  · exact strMentions_sandwich "No se encontraron productos para '" query "'"

/-- Witness for C7 at an empty store and the term "gopro". -/
theorem c7_search_no_results_witness :
    productSearch (fun _ _ => Except.ok []) "gopro" 5 =
      SearchOutput.noResults ("No se encontraron productos para '" ++ "gopro" ++ "'") ∧
    strMentions "gopro" ("No se encontraron productos para '" ++ "gopro" ++ "'") = true :=
  c7_search_no_results (fun _ _ => Except.ok []) "gopro" 5 rfl

/-- C8: the empty item list never fails and yields the zero breakdown —
no per-item entries, subtotal "0.00", discount_amount "0.00" and total
"0.00" — for every valid discount in [0, 100]. -/
theorem c8_empty_items_zero_breakdown (dp : ℚ) (h0 : 0 ≤ dp) (h100 : dp ≤ 100) :
    priceCalculator [] dp =
      Except.ok ⟨[], "0.00", (if 0 < dp then floatRepr dp ++ "%" else "0%"),
        "0.00", "0.00"⟩ := by
  have hent : processItems ([] : List LineItem) = some [] := rfl
  have hd : rawDiscountAmount (rawTotal []) dp = 0 := by
    rw [rawDiscountAmount]
    split <;> simp [rawTotal]
  rw [priceCalculator_ok _ _ _ hent, hd]
  have h1 : rawTotal [] - 0 + 0 = 0 := by simp [rawTotal]
  have h2 : rawTotal [] - 0 = 0 := by simp [rawTotal]
  rw [h1, h2, format2_zero]
  simp

/-- Witness for C8 at the valid discount 10. -/
theorem c8_empty_items_zero_breakdown_witness :
    priceCalculator [] 10 =
      Except.ok ⟨[], "0.00", (if (0:ℚ) < 10 then floatRepr 10 ++ "%" else "0%"),
        "0.00", "0.00"⟩ :=
  c8_empty_items_zero_breakdown 10 (by norm_num) (by norm_num)

/-- C9: the health check reports overall "healthy" exactly when both the
catalog-store probe and the model round trip succeed, and "unhealthy"
exactly when at least one of them fails. -/
theorem c9_health_both_required (mongoProbe : Except String Nat)
    (llmProbe : Except String AIMessage) :
    ((health_check mongoProbe llmProbe).status = "healthy" ↔
      (probeOk mongoProbe = true ∧ probeOk llmProbe = true)) ∧
    ((health_check mongoProbe llmProbe).status = "unhealthy" ↔
      ¬(probeOk mongoProbe = true ∧ probeOk llmProbe = true)) := by
  cases mongoProbe <;> cases llmProbe <;> simp [health_check, probeOk]

/-- C10: an item without a "price" key gets unit price 0 and so contributes
the subtotal "0.00" instead of failing, and an item without a "name" key is
displayed as "Producto sin nombre". -/
theorem c10_missing_keys_defaulted (item : LineItem) :
    (item.price = none →
      (processItem item).map formatEntry =
        some ⟨item.name.getD "Producto sin nombre", "0.00", item.quantity.getD 1, "0.00"⟩) ∧
    (item.name = none → ∀ e, processItem item = some e → e.product = "Producto sin nombre") := by
  constructor
  · intro hp
    simp [processItem, hp, normalizePrice, formatEntry, format2_zero]
  · intro hn e he
    simp only [processItem, Option.map_eq_some'] at he
    obtain ⟨p, -, hpe⟩ := he
    rw [← hpe, hn]
    rfl

/-- Witness for C10 at the item with every key missing. -/
theorem c10_missing_keys_defaulted_witness :
    (processItem ⟨none, none, none⟩).map formatEntry =
      some ⟨"Producto sin nombre", "0.00", 1, "0.00"⟩ ∧
    RawEntry.product ⟨"Producto sin nombre", 0, 1, 0 * ((1 : ℤ) : ℚ)⟩ =
      "Producto sin nombre" :=
  ⟨(c10_missing_keys_defaulted ⟨none, none, none⟩).1 rfl,
    (c10_missing_keys_defaulted ⟨none, none, none⟩).2 rfl
      ⟨"Producto sin nombre", 0, 1, 0 * ((1 : ℤ) : ℚ)⟩ rfl⟩

end Pres1
